import Mathlib

/-!
Verification of the BGP route-map synthesis script
(`bgp_route_mapper/bgp_route_mapper.py`) against its natural-language
specification.  The Python functions are shallowly embedded as executable
Lean definitions: machine integers become `Nat`, fallible operations
return `Option`/`Except`, and the per-host mutable state bag becomes an
explicit `Host` record threaded through the pipeline stages.  IP
addresses are modelled as IPv4 (all exclusion ranges and every address
appearing in the repository are IPv4 dotted quads).
-/

namespace BgpRouteMapper

/-! ## IPv4 addresses

`ipaddress.ip_address` / `ipaddress.ip_network` are modelled for IPv4:
an address is a `Nat` below `2^32`, parsed from a dotted-quad literal.
Python's parser requires exactly four decimal octets, each in `0..255`,
with no leading zeros. -/

/-- Split a character list at every occurrence of `sep` (the splitting
used by Python's `str.split(sep)`; empty pieces are kept). -/
def splitChar (sep : Char) : List Char → List (List Char)
  | [] => [[]]
  | c :: cs =>
      let rest := splitChar sep cs
      if c = sep then [] :: rest
      else
        match rest with
        | [] => [[c]]
        | r :: rs => (c :: r) :: rs

/-- Decimal value of a digit string: `none` unless non-empty and all
digits. -/
def parseDecimal : List Char → Option Nat
  | [] => none
  | cs =>
      cs.foldl
        (fun acc c =>
          match acc with
          | none => none
          | some v => if c.isDigit then some (v * 10 + (c.toNat - 48)) else none)
        (some 0)

/-- One decimal octet of a dotted quad: non-empty, all digits, at most
three of them, value `≤ 255`, no leading zero (`ipaddress` rejects
leading zeros). -/
def parseOctet (cs : List Char) : Option Nat :=
  match parseDecimal cs with
  | none => none
  | some v =>
      if cs.length ≤ 3 ∧ (cs.length = 1 ∨ cs.head? ≠ some '0') ∧ v ≤ 255 then
        some v
      else none

/-- Model of `ipaddress.ip_address` on a dotted-quad literal: four
octets joined by dots, value `a.b.c.d ↦ ((a*256+b)*256+c)*256+d`. -/
def parseIPv4 (s : String) : Option Nat :=
  match ((splitChar '.' s.data).mapM parseOctet) with
  | some [a, b, c, d] => some (((a * 256 + b) * 256 + c) * 256 + d)
  | _ => none

/-- Decimal digit character for `d < 10`. -/
def digitChar (d : Nat) : Char := Char.ofNat (48 + d)

/-- Decimal rendering of one octet value (`0 ≤ n ≤ 255`). -/
def renderOctet (n : Nat) : String :=
  if n < 10 then ⟨[digitChar n]⟩
  else if n < 100 then ⟨[digitChar (n / 10), digitChar (n % 10)]⟩
  else ⟨[digitChar (n / 100), digitChar (n / 10 % 10), digitChar (n % 10)]⟩

/-- Model of `str(ipaddress.ip_address(n))`: canonical dotted quad. -/
def formatIPv4 (n : Nat) : String :=
  renderOctet (n / 16777216 % 256) ++ "." ++ renderOctet (n / 65536 % 256)
    ++ "." ++ renderOctet (n / 256 % 256) ++ "." ++ renderOctet (n % 256)

/-- Shorthand for building an address value from its four octets. -/
def mkIP (a b c d : Nat) : Nat := ((a * 256 + b) * 256 + c) * 256 + d

/-- A CIDR range: network address together with its prefix length. -/
structure Cidr where
  base : Nat
  prefixLen : Nat
deriving Repr, DecidableEq

/-- Membership test `addr in ipaddress.ip_network(net)`: the top
`prefixLen` bits agree with the network address. -/
def ipInNet (ip : Nat) (net : Cidr) : Bool :=
  ip / 2 ^ (32 - net.prefixLen) == net.base / 2 ^ (32 - net.prefixLen)

/-- The first exclusion range of `validate_peer`: `10.254.254.0/24`. -/
def net10 : Cidr := ⟨mkIP 10 254 254 0, 24⟩

/-- The second exclusion range of `validate_peer`: `11.0.0.0/8`. -/
def net11 : Cidr := ⟨mkIP 11 0 0 0, 8⟩

/-- The `networks` list literal inside `validate_peer`, in source order. -/
def excludedNetworks : List Cidr := [net10, net11]

/-- The `for network in networks` loop of `validate_peer`: sets the
`exclude_peer` flag and `break`s at the first containing range. -/
def checkExcluded (ip : Nat) : List Cidr → Bool
  | [] => false
  | net :: rest => if ipInNet ip net then true else checkExcluded ip rest

/-! ## Data model (parsed records) -/

/-- One record of the TTP `neighbors` group: `peer_ip` is always
captured; the remaining fields come from optional per-peer lines, so
absence is modelled as `none` (the Python dict simply lacks the key). -/
structure Neighbor where
  peer_ip : String
  remote_as : Option String
  description : Option String
  route_map_out : Option String
  route_map_in : Option String
deriving Repr, DecidableEq

/-- A neighbor record carrying only a peer IP and an optional outbound
route-map name, as produced for peers whose other lines are absent. -/
def mkNeighbor (ip : String) (rmOut : Option String) : Neighbor :=
  ⟨ip, none, none, rmOut, none⟩

/-- One row of the textfsm-parsed `show route-map` table (all scalar
fields are strings in the parsed output, including `seq`). -/
structure RouteMapEntry where
  name : String
  seq : String
  action : String
  match_clauses : List String
  set_clauses : List String
deriving Repr, DecidableEq

/-- One record of the TTP as-path template:
`ip as-path access-list {{ as_path_acl }} {{ action }} {{ as_path_match }}`. -/
structure AsPathEntry where
  as_path_acl : String
  action : String
  as_path_match : String
deriving Repr, DecidableEq

/-- The error raised by `ipaddress.ip_address` on a malformed literal
(a `ValueError` in Python; the spec's `ParseError`). -/
inductive ParseErr where
  | malformedIP (raw : String)
deriving Repr, DecidableEq

/-- Model of `validate_peer`: walk the neighbor list in order; parse each
`peer_ip` (raising on a malformed literal), drop peers inside an
exclusion range, and collect `str(peer_ip)` for the rest. -/
def validatePeers : List Neighbor → Except ParseErr (List String)
  | [] => .ok []
  | n :: rest =>
      match parseIPv4 n.peer_ip with
      | none => .error (.malformedIP n.peer_ip)
      | some ip =>
          match validatePeers rest with
          | .error e => .error e
          | .ok l =>
              .ok (if checkExcluded ip excludedNetworks then l
                   else formatIPv4 ip :: l)

/-! ## Route-map synthesis (`build_route_map`)

The per-host state bag (`task.host`) entering `build_route_map` carries
the outputs of the earlier stages; it is modelled as an explicit record.
The function's observable effects — the mutated neighbor records, the
accumulated `new_config` string and the `print`/`pprint` calls — become
the returned `BuildResult`. -/

/-- The fields of `task.host` read by `build_route_map`:
`bgp_config['neighbors']`, `validated_peers`, `route_maps`,
`as_path_acl` and `community`. -/
structure Host where
  neighbors : List Neighbor
  validated_peers : List String
  route_maps : List RouteMapEntry
  as_path_acl : List AsPathEntry
  community : String
deriving Repr, DecidableEq

/-- One `print`/`pprint` call made by `build_route_map`, in order:
the per-peer info line, the `"Create new route-map:"` message, the
`pp(task.host['as_path_acl'])` dump, a matched route-map row, and the
final `print(task.host['new_config'])`. -/
inductive Event where
  | peerInfo (peer_ip route_map_out : String)
  | createNewMsg
  | ppAsPathAcl (acl : List AsPathEntry)
  | matchedRouteMap (entry : RouteMapEntry)
  | finalConfig (config : String)
deriving Repr, DecidableEq

/-- Lines 151–152 of the source: a neighbor dict with no
`route_map_out` key gets the sentinel string `'NONE'` written into it;
no other field is touched. -/
def normNeighbor (n : Neighbor) : Neighbor :=
  { n with route_map_out := some (n.route_map_out.getD "NONE") }

/-- The `textwrap.dedent(f"""...""")` block appended to `new_config`
for a CREATE_NEW peer: three literal chunks around the two f-string
interpolations (`task.host['community']` and `peer_ip`).  The dedented
text starts and ends with a newline, and the `deny 20` source line
carries twenty trailing spaces, which `dedent` preserves. -/
def createNewText (community peer_ip : String) : String :=
  "\nip as-path access-list 1 permit ^$\nroute-map NEW_ROUTE_MAP permit 10\n match as-path 1\n set community "
    ++ (community
      ++ ("\nroute-map NEW_ROUTE_MAP deny 20                    \nrouter bgp 65000\n neighbor "
        ++ (peer_ip ++ " route-map NEW_ROUTE_MAP out\n")))

/-- One iteration of the `for neighbor in ...neighbors` loop of
`build_route_map`: normalize the record, then — only for validated
peers — either append the CREATE_NEW block (`route_map_out == "NONE"`)
or print the as-path ACLs and every route-map row whose name matches.
Returns the (possibly mutated) neighbor, the text appended to
`new_config`, and the prints issued. -/
def processNeighbor (h : Host) (n0 : Neighbor) :
    Neighbor × String × List Event :=
  let n := normNeighbor n0
  let rmo := (n.route_map_out).getD "NONE"
  if h.validated_peers.contains n.peer_ip then
    if rmo == "NONE" then
      (n, createNewText h.community n.peer_ip,
       [.peerInfo n.peer_ip rmo, .createNewMsg])
    else
      (n, "",
       [.peerInfo n.peer_ip rmo, .ppAsPathAcl h.as_path_acl] ++
         (h.route_maps.filter (fun rm => rm.name == rmo)).map
           .matchedRouteMap)
  else (n, "", [])

/-- The observable outcome of `build_route_map`: the neighbor list
after mutation, `task.host['new_config']`, and the ordered prints. -/
structure BuildResult where
  neighbors : List Neighbor
  new_config : String
  events : List Event
deriving Repr, DecidableEq

/-- Model of `build_route_map`: fold `processNeighbor` over the neighbor list,
concatenating the emitted blocks into `new_config` (initially `""`),
then print the final config. -/
def buildRouteMap (h : Host) : BuildResult :=
  let steps := h.neighbors.map (processNeighbor h)
  let config := String.join (steps.map (fun s => s.2.1))
  { neighbors := steps.map (fun s => s.1)
    new_config := config
    events := (steps.map (fun s => s.2.2)).flatten ++ [.finalConfig config] }

/-- The pipeline stages exercised by the end-to-end claims: peer
validation (`validate_peer`) followed by synthesis (`build_route_map`).
A `ParseError` from validation aborts the host's pipeline. -/
def runPipeline (neighbors : List Neighbor) (route_maps : List RouteMapEntry)
    (acl : List AsPathEntry) (community : String) :
    Except ParseErr BuildResult :=
  match validatePeers neighbors with
  | .error e => .error e
  | .ok vp => .ok (buildRouteMap ⟨neighbors, vp, route_maps, acl, community⟩)

/-! ## BGP-section parsing (`get_bgp_config`)

The TTP engine is modelled at the granularity the claims need: a line
of the raw `show run | section bgp` output either matches one of the
four neighbor patterns of the template's `neighbors` group (capturing
the named fields) or it does not; matched captures are assembled into
per-peer records; a group with no matches is absent from the TTP JSON
result, a group with exactly one record is a bare dict, and otherwise a
list.  Lines 47–54 of the source then coerce dicts to one-element
lists and insert an empty `neighbors` list when the key is missing. -/

/-- One captured line of the `neighbors` TTP group. -/
inductive NeighborFact where
  | remoteAs (peer_ip remote_as : String)
  | descr (peer_ip description : String)
  | rmOut (peer_ip route_map : String)
  | rmIn (peer_ip route_map : String)
deriving Repr, DecidableEq

/-- Whitespace-separated words of a raw config line. -/
def words (l : String) : List String :=
  ((splitChar ' ' l.data).filter (fun w => !w.isEmpty)).map (fun w => ⟨w⟩)

/-- Match one raw line against the four neighbor patterns of the BGP
TTP template (each `{{ name }}` capture is one word). -/
def matchNeighborLine (l : String) : Option NeighborFact :=
  match words l with
  | ["neighbor", ip, "remote-as", a] => some (.remoteAs ip a)
  | ["neighbor", ip, "description", d] => some (.descr ip d)
  | ["neighbor", ip, "route-map", rm, "out"] => some (.rmOut ip rm)
  | ["neighbor", ip, "route-map", rm, "in"] => some (.rmIn ip rm)
  | _ => none

/-- The peer IP captured by a fact. -/
def NeighborFact.ip : NeighborFact → String
  | .remoteAs p _ => p
  | .descr p _ => p
  | .rmOut p _ => p
  | .rmIn p _ => p

/-- Merge one captured line into the record under construction for its
peer (TTP fills each named capture of the current record). -/
def applyFact (n : Neighbor) : NeighborFact → Neighbor
  | .remoteAs _ a => { n with remote_as := some a }
  | .descr _ d => { n with description := some d }
  | .rmOut _ rm => { n with route_map_out := some rm }
  | .rmIn _ rm => { n with route_map_in := some rm }

/-- Per-peer record assembly, processing facts left to right: each fact
is merged into the already-started record for its peer, or starts a
fresh record (all optional fields absent) at the end of the list. -/
def collectFacts (acc : List Neighbor) : List NeighborFact → List Neighbor
  | [] => acc
  | f :: fs =>
      if acc.any (fun n => n.peer_ip == f.ip) then
        collectFacts
          (acc.map (fun n => if n.peer_ip == f.ip then applyFact n f else n))
          fs
      else
        collectFacts (acc ++ [applyFact (mkNeighbor f.ip none) f]) fs

/-- The records of the `neighbors` group for a raw input: capture every
matching line, then assemble records per peer. -/
def collectNeighbors (lines : List String) : List Neighbor :=
  collectFacts [] (lines.filterMap matchNeighborLine)

/-- The shape of a group inside the TTP JSON result: a bare dict for a
single record, a list otherwise; an empty group is absent (`none`). -/
inductive TtpGroup where
  | scalar (n : Neighbor)
  | seq (l : List Neighbor)
deriving Repr, DecidableEq

/-- The `neighbors` entry of the raw TTP result for `get_bgp_config`:
`none` models a missing key. -/
def ttpNeighborsRaw (lines : List String) : Option TtpGroup :=
  match collectNeighbors lines with
  | [] => none
  | [r] => some (.scalar r)
  | rs => some (.seq rs)

/-- Lines 47–54 of `get_bgp_config`: coerce a rogue dict to a
one-element list and bind `neighbors` to `[]` when the key is absent,
so the key is always present and always a sequence. -/
def getBgpNeighbors (lines : List String) : List Neighbor :=
  match ttpNeighborsRaw lines with
  | none => []
  | some (.scalar r) => [r]
  | some (.seq rs) => rs

/-! ## AS-path ACL parsing (`get_as_path`)

The JSON value loaded from the TTP result is a nested structure of
lists and record dicts.  Lines 99–108 of the source run
`while type(as_path[0]) == list: as_path = as_path.pop()` — note that
`pop()` takes the LAST element and rebinds `as_path` to it. -/

/-- A Python JSON value as `get_as_path` sees it: a parsed record dict
or a (possibly nested) list. -/
inductive PyVal where
  | dict (e : AsPathEntry)
  | list (l : List PyVal)

/-- Nesting depth of a value (`0` for a dict); a sound fuel bound for
the unwrapping loop, since each iteration descends into an element. -/
def pyDepth : PyVal → Nat
  | .dict _ => 0
  | .list [] => 1
  | .list (x :: xs) => max (1 + pyDepth x) (pyDepth (.list xs))

/-- The runtime errors the `while` loop can hit: `as_path[0]` on an
empty list (`IndexError`) and indexing a dict with `0` after the loop
variable was rebound to a dict (`KeyError`). -/
inductive AsPathErr where
  | indexError
  | keyError
  | fuelExhausted
deriving Repr, DecidableEq

/-- The `while type(as_path[0]) == list: as_path = as_path.pop()` loop:
stop when the head is a dict; otherwise rebind to the last element and
continue (erroring as Python would on an empty list or a dict rebind). -/
def popUnwrap : Nat → List PyVal → Except AsPathErr (List PyVal)
  | _, [] => .error .indexError
  | _, .dict e :: rest => .ok (.dict e :: rest)
  | 0, .list _ :: _ => .error .fuelExhausted
  | fuel + 1, l@(.list _ :: _) =>
      match l.getLast? with
      | some (.list inner) => popUnwrap fuel inner
      | some (.dict _) => .error .keyError
      | none => .error .indexError

/-- Nesting depth of the loop's list state. -/
def pyDepthList (l : List PyVal) : Nat := pyDepth (.list l)

/-- Lines 99–108 of `get_as_path`: an empty parse result is kept as is;
otherwise the double-encapsulated list is unwrapped by the `pop` loop. -/
def getAsPathNorm (as_path : List PyVal) : Except AsPathErr (List PyVal) :=
  if as_path.isEmpty then .ok as_path
  else popUnwrap (pyDepthList as_path) as_path

/-! ## Concrete fixtures

Concrete device states used by the end-to-end and error-handling
claims; the route-map rows follow the `fake_route_map` shape given in
the source's `main` (the textfsm output format for `show route-map`). -/

/-- An as-path ACL table holding id `1`, `permit ^$`. -/
def asPathAcl1 : List AsPathEntry := [⟨"1", "permit", "^$"⟩]

/-- The `fake_route_map` table from the source: `DENY_ANY` (10, deny)
and `VERIZON_OUT` (10 permit matching as-path filter 1; 20 deny). -/
def fakeRouteMap : List RouteMapEntry :=
  [⟨"DENY_ANY", "10", "deny", [], []⟩,
   ⟨"VERIZON_OUT", "10", "permit", ["as-path (as-path filter): 1"], []⟩,
   ⟨"VERIZON_OUT", "20", "deny", [], []⟩]

/-- A route-map table on which the synthesized name `NEW_ROUTE_MAP`
already exists (collision scenario). -/
def collidingRouteMaps : List RouteMapEntry :=
  fakeRouteMap ++
    [⟨"NEW_ROUTE_MAP", "10", "permit", ["as-path (as-path filter): 1"], []⟩]

/-- A host whose single neighbor `22.22.22.22` (eligible, no outbound
route-map) has already passed validation. -/
def demoHost : Host :=
  ⟨[mkNeighbor "22.22.22.22" none], ["22.22.22.22"], [], [], "100:200"⟩

/-- Raw BGP section text with networks and an aggregate but zero
neighbor lines. -/
def bgpNoNeighborLines : List String :=
  ["router bgp 65000",
   " network 10.10.192.0 mask 255.255.255.0",
   " network 10.10.193.0 mask 255.255.255.0",
   " aggregate-address 10.10.192.0 255.255.240.0 summary-only"]

/-- Raw BGP section text whose `neighbors` group matches exactly once. -/
def singleNeighborLines : List String :=
  ["router bgp 65000", " neighbor 22.22.22.22 remote-as 65222"]

/-! ## Helper lemmas -/

/-- The neighbor returned by one loop iteration is the normalized
input record, whatever branch is taken. -/
lemma processNeighbor_fst (h : Host) (n : Neighbor) :
    (processNeighbor h n).1 = normNeighbor n := by
  simp only [processNeighbor]
  split <;> [skip; rfl]
  split <;> rfl

/-- After `build_route_map`, the neighbor list is exactly the input
list with every record normalized in place. -/
lemma buildRouteMap_neighbors (h : Host) :
    (buildRouteMap h).neighbors = h.neighbors.map normNeighbor := by
  simp [buildRouteMap, List.map_map, Function.comp, processNeighbor_fst]

/-- For a validated peer whose record lacks an outbound route-map (or
already carries the `'NONE'` sentinel), the loop iteration takes the
CREATE_NEW branch: it emits the synthesized block and prints the
peer-info line followed by the create message. -/
lemma processNeighbor_create (h : Host) (n : Neighbor)
    (hval : h.validated_peers.contains n.peer_ip = true)
    (hnone : n.route_map_out = none ∨ n.route_map_out = some "NONE") :
    processNeighbor h n =
      (normNeighbor n, createNewText h.community n.peer_ip,
        [.peerInfo n.peer_ip "NONE", .createNewMsg]) := by
  have hrmo : (normNeighbor n).route_map_out = some "NONE" := by
    rcases hnone with h0 | h0 <;> simp [normNeighbor, h0]
  have hpip : (normNeighbor n).peer_ip = n.peer_ip := rfl
  simp only [processNeighbor, hrmo, hpip, hval, Option.getD_some]
  simp

/-! ## Claim theorems -/

/-- C3: for every well-formed peer IP, the peer is ineligible iff its
address lies inside `10.254.254.0/24` or `11.0.0.0/8`; the ranges are
checked in order and the first containing range short-circuits the
loop; every other parsed address is kept as eligible. -/
theorem peer_exclusion_iff (n : Neighbor) (ip : Nat)
    (hp : parseIPv4 n.peer_ip = some ip) :
    checkExcluded ip excludedNetworks = (ipInNet ip net10 || ipInNet ip net11) ∧
    (∀ rest : List Cidr, ipInNet ip net10 = true →
      checkExcluded ip (net10 :: rest) = true) ∧
    (validatePeers [n] = .ok [] ↔ (ipInNet ip net10 || ipInNet ip net11) = true) ∧
    (checkExcluded ip excludedNetworks = false →
      validatePeers [n] = .ok [formatIPv4 ip]) := by
  have hch : checkExcluded ip excludedNetworks
      = (ipInNet ip net10 || ipInNet ip net11) := by
    cases h1 : ipInNet ip net10 <;> cases h2 : ipInNet ip net11 <;>
      simp [checkExcluded, excludedNetworks, h1, h2]
  have hval : validatePeers [n]
      = .ok (if checkExcluded ip excludedNetworks then []
             else [formatIPv4 ip]) := by
    simp [validatePeers, hp]
  refine ⟨hch, fun rest h1 => by simp [checkExcluded, h1], ?_, fun h0 => by
    rw [hval, h0]; rfl⟩
  rw [hval, hch]
  cases hb : (ipInNet ip net10 || ipInNet ip net11) <;> simp

/-- Witness for C3 at the excluded address `10.254.254.5`. -/
theorem peer_exclusion_iff_witness :
    validatePeers [mkNeighbor "10.254.254.5" none] = .ok [] :=
  ((peer_exclusion_iff (mkNeighbor "10.254.254.5" none)
      (mkIP 10 254 254 5) (by decide)).2.2.1).mpr (by decide)

/-- C7: a neighbor list containing any malformed peer IP makes
`validate_peer` raise (a `ParseError` carrying a malformed literal);
the list of validated peers is never produced. -/
theorem malformed_ip_raises (ns : List Neighbor)
    (h : ∃ n ∈ ns, parseIPv4 n.peer_ip = none) :
    (∃ s, parseIPv4 s = none ∧
      validatePeers ns = .error (.malformedIP s)) ∧
    ∀ l, validatePeers ns ≠ .ok l := by
  induction ns with
  | nil => simp at h
  | cons a rest ih =>
      cases hp : parseIPv4 a.peer_ip with
      | none =>
          refine ⟨⟨a.peer_ip, hp, by simp [validatePeers, hp]⟩, ?_⟩
          intro l hl
          simp [validatePeers, hp] at hl
      | some ip =>
          have hrest : ∃ n ∈ rest, parseIPv4 n.peer_ip = none := by
            rcases h with ⟨n, hn, hnone⟩
            rcases List.mem_cons.mp hn with h1 | h1
            · rw [h1, hp] at hnone; cases hnone
            · exact ⟨n, h1, hnone⟩
          obtain ⟨⟨s, hs, heq⟩, -⟩ := ih hrest
          refine ⟨⟨s, hs, by simp [validatePeers, hp, heq]⟩, ?_⟩
          intro l hl
          simp [validatePeers, hp, heq] at hl

/-- Witness for C7 at the malformed literal `"not-an-ip"`. -/
theorem malformed_ip_raises_witness :
    validatePeers [mkNeighbor "not-an-ip" none] ≠ .ok [] :=
  (malformed_ip_raises [mkNeighbor "not-an-ip" none]
      ⟨mkNeighbor "not-an-ip" none, by simp, by decide⟩).2 []

/-- C1: for every validated peer whose record has the `NONE` sentinel
(or no outbound route-map at all), the iteration takes the CREATE_NEW
branch (printing the create message), and the emitted block is, in
textual order: the as-path ACL line permitting exactly `^$`, the
route-map entry (10, permit) with its `match as-path` and
`set community` lines, the route-map entry (20, deny) with no match
line, and the neighbor binding line applying the new route-map name
outbound to that peer; `new_config` is the concatenation of the
per-neighbor emissions. -/
theorem create_new_emission_order (h : Host) (n : Neighbor)
    (hval : h.validated_peers.contains n.peer_ip = true)
    (hnone : n.route_map_out = none ∨ n.route_map_out = some "NONE") :
    (processNeighbor h n).2.2 = [.peerInfo n.peer_ip "NONE", .createNewMsg] ∧
    (processNeighbor h n).2.1
      = "\n" ++ ("ip as-path access-list 1 permit ^$" ++ ("\n"
          ++ ("route-map NEW_ROUTE_MAP permit 10" ++ ("\n"
          ++ (" match as-path 1" ++ ("\n"
          ++ (" set community " ++ (h.community ++ ("\n"
          ++ ("route-map NEW_ROUTE_MAP deny 20                    " ++ ("\n"
          ++ ("router bgp 65000" ++ ("\n"
          ++ (" neighbor " ++ (n.peer_ip ++ (" route-map NEW_ROUTE_MAP out"
          ++ "\n")))))))))))))))) ∧
    (buildRouteMap h).new_config
      = String.join (h.neighbors.map fun m => (processNeighbor h m).2.1) := by
  rw [processNeighbor_create h n hval hnone]
  refine ⟨rfl, rfl, ?_⟩
  simp [buildRouteMap, List.map_map]
  rfl

/-- Witness for C1 on a one-neighbor host with community `100:200`. -/
theorem create_new_emission_order_witness :
    (buildRouteMap demoHost).new_config
      = String.join
          (demoHost.neighbors.map fun m => (processNeighbor demoHost m).2.1) :=
  (create_new_emission_order demoHost (mkNeighbor "22.22.22.22" none)
      (by decide) (Or.inl rfl)).2.2

/-- C10: `build_route_map` rewrites the parsed model in place — every
neighbor record (validated or not) ends up with a `route_map_out`
field, `'NONE'` being written into records that lacked one, and no
other neighbor field changes. -/
theorem build_route_map_frame (h : Host) :
    (buildRouteMap h).neighbors = h.neighbors.map normNeighbor ∧
    ((buildRouteMap h).neighbors.all fun n => n.route_map_out.isSome) = true ∧
    ∀ n : Neighbor,
      (normNeighbor n).route_map_out = some (n.route_map_out.getD "NONE") ∧
      (normNeighbor n).peer_ip = n.peer_ip ∧
      (normNeighbor n).remote_as = n.remote_as ∧
      (normNeighbor n).description = n.description ∧
      (normNeighbor n).route_map_in = n.route_map_in := by
  refine ⟨buildRouteMap_neighbors h, ?_, fun n => ⟨rfl, rfl, rfl, rfl, rfl⟩⟩
  rw [buildRouteMap_neighbors h]
  simp [normNeighbor]

/-- C8: raw BGP text in which no line matches a neighbor pattern
leaves the `neighbors` group out of the raw TTP result, and
`get_bgp_config` then binds the key to the empty list — never a
missing key, never an error. -/
theorem zero_neighbor_lines_empty (lines : List String)
    (h : ∀ l ∈ lines, matchNeighborLine l = none) :
    ttpNeighborsRaw lines = none ∧ getBgpNeighbors lines = [] := by
  have hc : collectNeighbors lines = [] := by
    unfold collectNeighbors
    rw [List.filterMap_eq_nil_iff.mpr h]
    rfl
  exact ⟨by simp [ttpNeighborsRaw, hc], by
    simp [getBgpNeighbors, ttpNeighborsRaw, hc]⟩

/-- Witness for C8 on BGP text with networks but no neighbor lines. -/
theorem zero_neighbor_lines_empty_witness :
    getBgpNeighbors bgpNoNeighborLines = [] :=
  (zero_neighbor_lines_empty bgpNoNeighborLines (by decide)).2

/-- C9: a parse yielding exactly one record is normalized to a
one-element sequence: the TTP scalar dict of the BGP `neighbors` group
is wrapped into a one-element list, and a single-match as-path parse
(a doubly encapsulated singleton) is flattened to nesting depth 1 by
the `pop` loop. -/
theorem single_match_flattened (lines : List String) (r : Neighbor)
    (h : collectNeighbors lines = [r]) :
    ttpNeighborsRaw lines = some (.scalar r) ∧
    getBgpNeighbors lines = [r] ∧
    ∀ e : AsPathEntry,
      getAsPathNorm [PyVal.list [PyVal.dict e]] = .ok [PyVal.dict e] := by
  refine ⟨by simp [ttpNeighborsRaw, h], by
    simp [getBgpNeighbors, ttpNeighborsRaw, h], ?_⟩
  intro e
  have hd : pyDepthList [PyVal.list [PyVal.dict e]] = 2 := by
    simp [pyDepthList, pyDepth]
  simp only [getAsPathNorm, List.isEmpty_cons, Bool.false_eq_true,
    if_false, hd]
  rfl

/-- Witness for C9 on a single captured neighbor line. -/
theorem single_match_flattened_witness :
    getBgpNeighbors singleNeighborLines
      = [⟨"22.22.22.22", some "65222", none, none, none⟩] :=
  (single_match_flattened singleNeighborLines
      ⟨"22.22.22.22", some "65222", none, none, none⟩ (by decide)).2.1

/-- C2 (failing input): an eligible peer bound to route-map
`VERIZON_OUT`, which exists (terminal deny at 20, highest permit at
10) but carries no community policy.  The code takes the `else`
branch, only prints the as-path ACLs and the matching rows, emits no
configuration, and has no ADD_ENTRY or `NoSequenceGapError` path. -/
theorem existing_route_map_no_add_entry :
    runPipeline [mkNeighbor "22.22.22.22" (some "VERIZON_OUT")]
        fakeRouteMap asPathAcl1 "100:200"
      = .ok
          ⟨[⟨"22.22.22.22", none, none, some "VERIZON_OUT", none⟩], "",
            [.peerInfo "22.22.22.22" "VERIZON_OUT",
             .ppAsPathAcl asPathAcl1,
             .matchedRouteMap
               ⟨"VERIZON_OUT", "10", "permit",
                 ["as-path (as-path filter): 1"], []⟩,
             .matchedRouteMap ⟨"VERIZON_OUT", "20", "deny", [], []⟩,
             .finalConfig ""]⟩ := by
  rfl

/-- C4 counterexample: `11.11.11.11` lies inside the exclusion range
`11.0.0.0/8`, so the pipeline validates no peer and emits nothing —
there is no CREATE_NEW decision for that device, contradicting the
claimed end-to-end scenario. -/
theorem pipeline_11_excluded_counterexample :
    validatePeers [mkNeighbor "11.11.11.11" none] = .ok [] ∧
    runPipeline [mkNeighbor "11.11.11.11" none] [] [] "100:200"
      = .ok
          ⟨[⟨"11.11.11.11", none, none, some "NONE", none⟩], "",
            [.finalConfig ""]⟩ :=
  ⟨rfl, rfl⟩

/-- C4 amended: for a reported neighbor outside the exclusion ranges
(`22.22.22.22`) with no outbound route-map and community `100:200`,
the pipeline produces the CREATE_NEW outcome: AS-path ACL `1 permit
^$`, route-map entries (10, permit, match as-path 1, set community
100:200) and (20, deny), and the outbound binding of `NEW_ROUTE_MAP`
to the peer. -/
theorem pipeline_create_new_end_to_end :
    runPipeline [mkNeighbor "22.22.22.22" none] [] [] "100:200"
      = .ok
          ⟨[⟨"22.22.22.22", none, none, some "NONE", none⟩],
            createNewText "100:200" "22.22.22.22",
            [.peerInfo "22.22.22.22" "NONE", .createNewMsg,
             .finalConfig (createNewText "100:200" "22.22.22.22")]⟩ ∧
    createNewText "100:200" "22.22.22.22"
      = "\nip as-path access-list 1 permit ^$\nroute-map NEW_ROUTE_MAP permit 10\n match as-path 1\n set community 100:200\nroute-map NEW_ROUTE_MAP deny 20                    \nrouter bgp 65000\n neighbor 22.22.22.22 route-map NEW_ROUTE_MAP out\n" :=
  ⟨rfl, rfl⟩

/-- C5 (failing input): the device already has a route-map named
`NEW_ROUTE_MAP` and an as-path ACL with id `1`, yet the CREATE_NEW
branch emits the synthesized block unconditionally — no collision
check exists and no error is surfaced. -/
theorem collision_unchecked :
    ("NEW_ROUTE_MAP" ∈ collidingRouteMaps.map RouteMapEntry.name ∧
      "1" ∈ asPathAcl1.map AsPathEntry.as_path_acl) ∧
    runPipeline [mkNeighbor "22.22.22.22" none] collidingRouteMaps
        asPathAcl1 "100:200"
      = .ok
          ⟨[⟨"22.22.22.22", none, none, some "NONE", none⟩],
            createNewText "100:200" "22.22.22.22",
            [.peerInfo "22.22.22.22" "NONE", .createNewMsg,
             .finalConfig (createNewText "100:200" "22.22.22.22")]⟩ :=
  ⟨by decide, rfl⟩

/-- C6 (failing input): an eligible peer references route-map
`MISSING_MAP`, absent from the device's route-map table.  The code
indeed synthesizes no replacement, but it also reports nothing: the
run succeeds, the match loop prints no row, and no inconsistency is
surfaced. -/
theorem missing_route_map_not_reported :
    "MISSING_MAP" ∉ fakeRouteMap.map RouteMapEntry.name ∧
    runPipeline [mkNeighbor "22.22.22.22" (some "MISSING_MAP")]
        fakeRouteMap asPathAcl1 "100:200"
      = .ok
          ⟨[⟨"22.22.22.22", none, none, some "MISSING_MAP", none⟩], "",
            [.peerInfo "22.22.22.22" "MISSING_MAP",
             .ppAsPathAcl asPathAcl1,
             .finalConfig ""]⟩ :=
  ⟨by decide, rfl⟩

end BgpRouteMapper
